import Mathlib

/-!
Shallow embedding of the Feedly MCP proxy (src/server.py, src/client.py).

Each tool handler is a straight-line function that builds exactly one HTTP
request, hands it to an oracle standing for the network, and post-processes
the response exactly as the Python code does (`resp.raise_for_status()`
followed by `return resp.json()`).  A run of a handler is therefore a pair:
the list of requests it issued and the result it returned.
-/

namespace Feedly

/-- Decoded JSON values, the type of request/response bodies. -/
inductive Json where
  | null
  | bool (b : Bool)
  | num (n : Int)
  | str (s : String)
  | arr (xs : List Json)
  | obj (fields : List (String × Json))

/-- HTTP method of an outbound request (only GET and POST occur). -/
inductive Method where
  | get
  | post
deriving DecidableEq

/-- An upstream HTTP response: status code and decoded JSON body.
`body` models what `resp.json()` returns. -/
structure Response where
  status : Nat
  body : Json

/-- An outbound HTTP request as built by the handlers in src/server.py:
method, full URL, query parameters (values already coerced to strings),
optional JSON body, headers, and the timeout passed to httpx. -/
structure Request where
  method : Method
  url : String
  params : List (String × String)
  body : Option Json
  headers : List (String × String)
  timeout : Nat

/-- The error raised by `resp.raise_for_status()` (httpx.HTTPStatusError),
carrying the HTTP status and the response body. -/
structure UpstreamError where
  status : Nat
  body : Json

/-- The network: maps each issued request to the response received. -/
def Oracle : Type := Request → Response

/-- src/server.py line 8: the fixed base URL. -/
def FEEDLY_BASE : String := "https://api.feedly.com/v3"

/-- Python string interpolation of an `Optional[str]` value:
`None` prints as the literal text "None".  Used because
`TOKEN = os.getenv("FEEDLY_TOKEN")` may be `None` and is interpolated
into the header with an f-string. -/
def pyStr : Option String → String
  | none => "None"
  | some s => s

/-- src/server.py lines 11-14: the module-level HEADERS dict, built once
from TOKEN (the value of the FEEDLY_TOKEN environment variable, possibly
absent). -/
def HEADERS (tok : Option String) : List (String × String) :=
  [("Authorization", "Bearer " ++ pyStr tok), ("accept", "application/json")]

/-- httpx `Response.raise_for_status`: succeeds exactly when the status is
in the 2xx success range, otherwise raises an error carrying the status
and the response body. -/
def raise_for_status (r : Response) : Except UpstreamError Unit :=
  if 200 ≤ r.status ∧ r.status < 300 then Except.ok () else Except.error ⟨r.status, r.body⟩

/-- `resp.raise_for_status(); return resp.json()` — the shared tail of all
four handlers. -/
def finishResponse (resp : Response) : Except UpstreamError Json :=
  match raise_for_status resp with
  | Except.error e => Except.error e
  | Except.ok _ => Except.ok resp.body

/-- A handler run: the requests it issued, in order, and its result. -/
def HandlerRun : Type := List Request × Except UpstreamError Json

/-- src/server.py lines 18-25, `search(query, count=10)`: one POST to the
search endpoint with `params={"count": str(count)}` and body `{"query": query}`. -/
def search (tok : Option String) (query : String) (count : Int) (oracle : Oracle) : HandlerRun :=
  let params := [("count", toString count)]
  let body := Json.obj [("query", Json.str query)]
  let req : Request := ⟨Method.post, FEEDLY_BASE ++ "/search/contents", params, some body, HEADERS tok, 30⟩
  let resp := oracle req
  ([req], finishResponse resp)

/-- src/server.py lines 29-39, `collect(stream_id, count=20, continuation=None)`:
one GET to the stream-contents endpoint; the `continuation` key is added
only when the Python value is truthy (`if continuation:`), so neither
`None` nor the empty string adds it. -/
def collect (tok : Option String) (stream_id : String) (count : Int)
    (continuation : Option String) (oracle : Oracle) : HandlerRun :=
  let params := [("streamId", stream_id), ("count", toString count)]
  let params :=
    match continuation with
    | some c => if c = "" then params else params ++ [("continuation", c)]
    | none => params
  let req : Request := ⟨Method.get, FEEDLY_BASE ++ "/streams/contents", params, none, HEADERS tok, 30⟩
  let resp := oracle req
  ([req], finishResponse resp)

/-- The sixteen uppercase hexadecimal digit characters. -/
def HEX_DIGITS : List Char :=
  ['0', '1', '2', '3', '4', '5', '6', '7', '8', '9', 'A', 'B', 'C', 'D', 'E', 'F']

/-- The n-th uppercase hex digit (only ever applied to n < 16). -/
def hexDigit (n : Nat) : Char := HEX_DIGITS.getD n '0'

/-- Percent-encoding of one byte, `"%{:02X}".format(b)`. -/
def percentByte (b : Nat) : List Char := ['%', hexDigit (b / 16), hexDigit (b % 16)]

/-- UTF-8 encoding of one character as a list of byte values, as performed
by Python `str.encode("utf-8")` inside `urllib.parse.quote`. -/
def utf8Bytes (c : Char) : List Nat :=
  let n := c.toNat
  if n < 128 then [n]
  else if n < 2048 then [192 + n / 64, 128 + n % 64]
  else if n < 65536 then [224 + n / 4096, 128 + n / 64 % 64, 128 + n % 64]
  else [240 + n / 262144, 128 + n / 4096 % 64, 128 + n / 64 % 64, 128 + n % 64]

/-- The characters `urllib.parse.quote` never encodes (ASCII letters,
digits, and `_.-~`); `quote_plus` is called with `safe=""`. -/
def alwaysSafe (c : Char) : Bool :=
  c.isAlpha || c.isDigit || c == '_' || c == '.' || c == '-' || c == '~'

/-- Per-character action of `urllib.parse.quote_plus`: safe characters kept,
space mapped to `+`, every other character percent-encoded byte by byte. -/
def quotePlusChar (c : Char) : List Char :=
  if alwaysSafe c then [c]
  else if c == ' ' then ['+']
  else (utf8Bytes c).flatMap percentByte

/-- `urllib.parse.quote_plus` on a whole string. -/
def quotePlus (s : String) : String := ⟨s.data.flatMap quotePlusChar⟩

/-- src/server.py lines 44-53, `entity_lookup(entity_id)`: percent-encodes
the id with `quote_plus` and issues one GET to the entities endpoint at
the encoded path, with no query parameters and no body. -/
def entity_lookup (tok : Option String) (entity_id : String) (oracle : Oracle) : HandlerRun :=
  let encoded := quotePlus entity_id
  let req : Request := ⟨Method.get, FEEDLY_BASE ++ "/entities/" ++ encoded, [], none, HEADERS tok, 30⟩
  let resp := oracle req
  ([req], finishResponse resp)

/-- src/server.py lines 57-66, `autocomplete_entities(prefix, count=10)`
(parameter `prefix` of the source is named `pfx` here because `prefix` is
reserved in Lean): one GET to the autocomplete endpoint. -/
def autocomplete_entities (tok : Option String) (pfx : String) (count : Int) (oracle : Oracle) : HandlerRun :=
  let params := [("prefix", pfx), ("count", toString count)]
  let req : Request := ⟨Method.get, FEEDLY_BASE ++ "/entities/autocomplete", params, none, HEADERS tok, 30⟩
  let resp := oracle req
  ([req], finishResponse resp)

/-- A validated tool call as the dispatcher hands it to a handler: one
constructor per registered tool, `Option` arguments standing for
parameters the caller may omit (the handler signature then supplies the
default: 10, 20, 10, and `None`). -/
inductive ToolCall where
  | search (query : String) (count : Option Int)
  | collect (stream_id : String) (count : Option Int) (continuation : Option String)
  | entity_lookup (entity_id : String)
  | autocomplete (pfx : String) (count : Option Int)

/-- The dispatcher: routes a validated call to its handler, filling in the
declared defaults for omitted arguments, and returns the requests and
the result of the handler unchanged (handlers perform no recovery and
the dispatcher adds none). -/
def dispatch (tok : Option String) (call : ToolCall) (oracle : Oracle) : HandlerRun :=
  match call with
  | ToolCall.search q c => search tok q (c.getD 10) oracle
  | ToolCall.collect s c k => collect tok s (c.getD 20) k oracle
  | ToolCall.entity_lookup e => entity_lookup tok e oracle
  | ToolCall.autocomplete p c => autocomplete_entities tok p (c.getD 10) oracle

/-- One declared parameter of a tool: its name, whether the caller must
supply it, and its declared default value when optional. -/
structure ParamSpec where
  name : String
  required : Bool
  default : Option Json

/-- A registered tool: unique name, description, parameter schema.  Built
once at process start by the `@mcp.tool(...)` decorators; immutable
thereafter. -/
structure ToolDescriptor where
  name : String
  description : String
  params : List ParamSpec

/-- Descriptor registered by the decorator at src/server.py line 16. -/
def searchDesc : ToolDescriptor :=
  ⟨"feedly.search", "Full-text or NLP Layer search against Feedly work-space",
   [⟨"query", true, none⟩, ⟨"count", false, some (Json.num 10)⟩]⟩

/-- Descriptor registered by the decorator at src/server.py line 27. -/
def collectDesc : ToolDescriptor :=
  ⟨"feedly.collect", "Fetch articles from a Feedly StreamID (team feed, board, ...)",
   [⟨"stream_id", true, none⟩, ⟨"count", false, some (Json.num 20)⟩,
    ⟨"continuation", false, some Json.null⟩]⟩

/-- Descriptor registered by the decorator at src/server.py line 42. -/
def entityLookupDesc : ToolDescriptor :=
  ⟨"feedly.entity_lookup", "Return metadata about a single NLP entity ID.",
   [⟨"entity_id", true, none⟩]⟩

/-- Descriptor registered by the decorator at src/server.py line 55. -/
def autocompleteDesc : ToolDescriptor :=
  ⟨"feedly.autocomplete", "Suggest entity IDs that match a text prefix.",
   [⟨"prefix", true, none⟩, ⟨"count", false, some (Json.num 10)⟩]⟩

/-- The state of the dispatcher: the registry of tool descriptors.  Nothing in
src/server.py mutates it after the four decorators have run. -/
structure ServerState where
  registry : List ToolDescriptor

/-- The registry as it stands once the module has loaded: the four tools
in registration (source) order. -/
def initState : ServerState :=
  ⟨[searchDesc, collectDesc, entityLookupDesc, autocompleteDesc]⟩

/-- An operation a client can drive the server through: a listTools
request or a callTool request (with its network oracle). -/
inductive Op where
  | list
  | call (c : ToolCall) (oracle : Oracle)

/-- State transition of the dispatcher.  Handlers are stateless and no
operation touches the registry (the only registry writes in the source
are the import-time decorators), so every operation leaves the state
unchanged. -/
def stepState (s : ServerState) : Op → ServerState
  | Op.list => s
  | Op.call _ _ => s

/-- The server state after an arbitrary sequence of operations. -/
def runOps (ops : List Op) : ServerState := ops.foldl stepState initState

/-- `listTools()`: returns all registered descriptors in registration order. -/
def listTools (s : ServerState) : List ToolDescriptor := s.registry

/-!
The invocation client, src/client.py.  `run` opens one streamable-http
session, initializes it, issues one `call_tool`, and prints the result;
the `__main__` block parses a positional tool name, `--url` (default
`http://localhost:8080`) and `--args` (parsed by `json.loads`, default
the parse of `"{}"`, i.e. the empty object).  An exception that escapes
`run` is uncaught, so the interpreter prints its message on standard
error and exits with a non-zero status.
-/

/-- The parsed command line of src/client.py. -/
structure ClientOpts where
  tool : String
  url : String
  args : Json

/-- argparse as set up in src/client.py lines 87-91: positional `tool`;
`--url` defaulting to `http://localhost:8080`; `--args` given as JSON text
and parsed, `none` standing for an omitted flag.  argparse applies the
`type` function (`json.loads`) to the string default `"{}"`, which parses
to the empty object; a supplied flag arrives here already parsed. -/
def parseArgs (tool : String) (urlOpt : Option String) (argsOpt : Option Json) : ClientOpts :=
  ⟨tool, urlOpt.getD "http://localhost:8080", argsOpt.getD (Json.obj [])⟩

/-- An exception value as the client sees it. -/
structure PyError where
  msg : String

/-- Observable steps of one client run. -/
inductive ClientEvent where
  | openSession (url : String)
  | handshake
  | callTool (tool : String) (args : Json)
  | printed (result : Json)

/-- True exactly on an `openSession` event. -/
def isOpen : ClientEvent → Bool
  | ClientEvent.openSession _ => true
  | _ => false

/-- True exactly on a `callTool` event. -/
def isCall : ClientEvent → Bool
  | ClientEvent.callTool _ _ => true
  | _ => false

/-- What one client run produced: its events in order, the process exit
code, and the error message printed on standard error, if any. -/
structure ClientOutcome where
  events : List ClientEvent
  exitCode : Nat
  stderr : Option String

/-- src/client.py `run` plus the `__main__` wrapper: open one session,
initialize, issue exactly one `call_tool`, print the result and exit 0;
an exception raised by the handshake or the call escapes uncaught, so the
process exits non-zero with the message on standard error.  `initResult`
and `callResult` stand for what `session.initialize()` and
`session.call_tool(...)` respectively return or raise. -/
def clientRun (opts : ClientOpts) (initResult : Except PyError Unit)
    (callResult : Except PyError Json) : ClientOutcome :=
  match initResult with
  | Except.error e => ⟨[ClientEvent.openSession opts.url], 1, some e.msg⟩
  | Except.ok _ =>
    let evs := [ClientEvent.openSession opts.url, ClientEvent.handshake,
                ClientEvent.callTool opts.tool opts.args]
    match callResult with
    | Except.error e => ⟨evs, 1, some e.msg⟩
    | Except.ok r => ⟨evs ++ [ClientEvent.printed r], 0, none⟩

/-!
Helper lemmas shared by the claim theorems.
-/

/-- A hex digit is never a path separator or a colon. -/
lemma hexDigit_ne_sep (n : Nat) : hexDigit n ≠ '/' ∧ hexDigit n ≠ ':' := by
  unfold hexDigit
  rcases Nat.lt_or_ge n 16 with h | h
  · interval_cases n <;> exact ⟨by decide, by decide⟩
  · rw [List.getD_eq_default]
    · exact ⟨by decide, by decide⟩
    · simpa [HEX_DIGITS] using h

/-- No character produced by the per-character encoder is a raw slash or
colon: safe characters are never those two, and percent escapes consist
of a percent sign and hex digits. -/
lemma quotePlusChar_ne_sep (c : Char) : ∀ x ∈ quotePlusChar c, x ≠ '/' ∧ x ≠ ':' := by
  intro x hx
  unfold quotePlusChar at hx
  split at hx
  · next hsafe =>
    rw [List.mem_singleton] at hx
    subst hx
    constructor <;> rintro rfl <;> simp [alwaysSafe] at hsafe
  · split at hx
    · rw [List.mem_singleton] at hx
      subst hx
      exact ⟨by decide, by decide⟩
    · rw [List.mem_flatMap] at hx
      obtain ⟨b, -, hxb⟩ := hx
      simp only [percentByte, List.mem_cons, List.not_mem_nil, or_false] at hxb
      rcases hxb with rfl | rfl | rfl
      · exact ⟨by decide, by decide⟩
      · exact hexDigit_ne_sep _
      · exact hexDigit_ne_sep _

/-- The encoded form of any string contains no raw slash and no raw colon. -/
lemma quotePlus_no_sep (s : String) :
    (quotePlus s).data.all (fun c => !(c == '/' || c == ':')) = true := by
  rw [List.all_eq_true]
  intro x hx
  have hmem : x ∈ s.data.flatMap quotePlusChar := hx
  rw [List.mem_flatMap] at hmem
  obtain ⟨c, -, hxc⟩ := hmem
  have h := quotePlusChar_ne_sep c x hxc
  simp [h.1, h.2]

/-- Splitting `raise_for_status` by the success test: a 2xx status decodes
the body, anything else surfaces the status and body as an error. -/
lemma finishResponse_spec (resp : Response) :
    (200 ≤ resp.status ∧ resp.status < 300 → finishResponse resp = Except.ok resp.body) ∧
    (¬(200 ≤ resp.status ∧ resp.status < 300) →
      finishResponse resp = Except.error ⟨resp.status, resp.body⟩) := by
  constructor <;> intro h <;> simp [finishResponse, raise_for_status, h]

/-- No operation changes the server state. -/
lemma foldl_stepState (ops : List Op) : ∀ s : ServerState, ops.foldl stepState s = s := by
  induction ops with
  | nil => intro s; rfl
  | cons op rest ih => intro s; cases op <;> exact ih s

/-- The registry after any operation sequence is the initial registry. -/
lemma runOps_eq (ops : List Op) : runOps ops = initState :=
  foldl_stepState ops initState

/-!
Claim theorems.
-/

/-- C1 (counterexample to the claim as stated): the call supplies the
continuation string "" — a continuation string — yet the issued GET
carries only the streamId and count parameters, with no continuation
key, because the handler guards the insertion with Python truthiness. -/
theorem c1_counterexample :
    (dispatch none (ToolCall.collect "S0" (some 20) (some ""))
        (fun _ => ⟨200, Json.null⟩)).fst.map Request.params =
      [[("streamId", "S0"), ("count", "20")]] := by
  rfl

/-- C1 (amended): a collect call with stream id S, count 20 and no
continuation argument issues exactly one GET to the stream-contents
endpoint with parameters streamId=S and count="20" and no continuation
key; supplying a NON-EMPTY continuation string adds exactly that key. -/
theorem c1_collect_params (tok : Option String) (S : String) (oracle : Oracle) :
    (dispatch tok (ToolCall.collect S (some 20) none) oracle).fst =
      [⟨Method.get, FEEDLY_BASE ++ "/streams/contents",
        [("streamId", S), ("count", "20")], none, HEADERS tok, 30⟩] ∧
    ∀ c : String, c ≠ "" →
      (dispatch tok (ToolCall.collect S (some 20) (some c)) oracle).fst =
        [⟨Method.get, FEEDLY_BASE ++ "/streams/contents",
          [("streamId", S), ("count", "20"), ("continuation", c)], none, HEADERS tok, 30⟩] := by
  constructor
  · rfl
  · intro c hc
    simp only [dispatch, collect, hc, if_neg hc, Option.getD_some]
    rfl

/-- C1 witness: instantiating the amended claim at a concrete non-empty
continuation. -/
theorem c1_witness :
    (dispatch none (ToolCall.collect "user/abc/category/global.all" (some 20) (some "ct7"))
        (fun _ => ⟨200, Json.null⟩)).fst =
      [⟨Method.get, FEEDLY_BASE ++ "/streams/contents",
        [("streamId", "user/abc/category/global.all"), ("count", "20"), ("continuation", "ct7")],
        none, HEADERS none, 30⟩] :=
  (c1_collect_params none "user/abc/category/global.all" (fun _ => ⟨200, Json.null⟩)).2
    "ct7" (by decide)

/-- C2: the entity lookup handler issues exactly one GET to the entities
endpoint at the percent-encoded path; the encoded id contains no raw
slash and no raw colon (both are escaped, to %2F and %3A). -/
theorem c2_entity_lookup_encoding (tok : Option String) (eid : String) (oracle : Oracle) :
    (dispatch tok (ToolCall.entity_lookup eid) oracle).fst =
      [⟨Method.get, FEEDLY_BASE ++ "/entities/" ++ quotePlus eid, [], none, HEADERS tok, 30⟩] ∧
    (quotePlus eid).data.all (fun c => !(c == '/' || c == ':')) = true ∧
    quotePlus "/" = "%2F" ∧ quotePlus ":" = "%3A" :=
  ⟨rfl, quotePlus_no_sep eid, by decide, by decide⟩

/-- C3: every dispatched call issues exactly one upstream request; a
status in the 2xx range yields the decoded body, any other status yields
an error carrying that status and the response body, and the dispatcher
returns the handler result unchanged. -/
theorem c3_error_surfacing (tok : Option String) (call : ToolCall) (oracle : Oracle)
    (req : Request) (h : req ∈ (dispatch tok call oracle).fst) :
    (dispatch tok call oracle).fst = [req] ∧
    (200 ≤ (oracle req).status ∧ (oracle req).status < 300 →
      (dispatch tok call oracle).snd = Except.ok (oracle req).body) ∧
    (¬(200 ≤ (oracle req).status ∧ (oracle req).status < 300) →
      (dispatch tok call oracle).snd = Except.error ⟨(oracle req).status, (oracle req).body⟩) := by
  cases call <;>
  · simp only [dispatch, search, collect, entity_lookup, autocomplete_entities,
      List.mem_singleton] at h
    subst h
    exact ⟨rfl, (finishResponse_spec _).1, (finishResponse_spec _).2⟩

/-- C3 witness: a 500 response surfaces as an error with status 500 and
the body verbatim, from a single issued request. -/
theorem c3_witness :
    (dispatch none (ToolCall.search "ai" none) (fun _ => ⟨500, Json.str "oops"⟩)).snd =
      Except.error ⟨500, Json.str "oops"⟩ ∧
    (dispatch none (ToolCall.search "ai" none) (fun _ => ⟨500, Json.str "oops"⟩)).fst.length = 1 := by
  have h := c3_error_surfacing none (ToolCall.search "ai" none) (fun _ => ⟨500, Json.str "oops"⟩)
      ⟨Method.post, FEEDLY_BASE ++ "/search/contents", [("count", "10")],
        some (Json.obj [("query", Json.str "ai")]), HEADERS none, 30⟩
      (List.mem_singleton.mpr rfl)
  refine ⟨h.2.2 (by decide), ?_⟩
  rw [h.1]
  rfl

/-- C4: after any sequence of listTools/callTool operations, listTools
returns the four tool names, each exactly once, in registration order. -/
theorem c4_list_tools (ops : List Op) :
    (listTools (runOps ops)).map ToolDescriptor.name =
      ["feedly.search", "feedly.collect", "feedly.entity_lookup", "feedly.autocomplete"] ∧
    ((listTools (runOps ops)).map ToolDescriptor.name).Nodup := by
  rw [runOps_eq]
  exact ⟨rfl, by decide⟩

/-- C5: the search handler issues exactly one POST to the search endpoint
with JSON body containing the query, count as a query parameter
(defaulting to 10 when omitted), and on a 2xx response returns the
decoded body. -/
theorem c5_search_request (tok : Option String) (q : String) (c : Int) (oracle : Oracle) :
    dispatch tok (ToolCall.search q none) oracle = dispatch tok (ToolCall.search q (some 10)) oracle ∧
    (let req : Request := ⟨Method.post, FEEDLY_BASE ++ "/search/contents",
        [("count", toString c)], some (Json.obj [("query", Json.str q)]), HEADERS tok, 30⟩
     (dispatch tok (ToolCall.search q (some c)) oracle).fst = [req] ∧
     (200 ≤ (oracle req).status ∧ (oracle req).status < 300 →
       (dispatch tok (ToolCall.search q (some c)) oracle).snd = Except.ok (oracle req).body)) :=
  ⟨rfl, rfl, (finishResponse_spec _).1⟩

/-- C5 witness: a concrete search call on a 200 response returns the
decoded body. -/
theorem c5_witness :
    (dispatch none (ToolCall.search "llm" (some 10)) (fun _ => ⟨200, Json.arr []⟩)).snd =
      Except.ok (Json.arr []) :=
  (c5_search_request none "llm" 10 (fun _ => ⟨200, Json.arr []⟩)).2.2 (by decide)

/-- C6: every request issued by any dispatched call carries the bearer
Authorization header and the application/json accept header, and uses
timeout 30. -/
theorem c6_headers_timeout (tok : Option String) (call : ToolCall) (oracle : Oracle) :
    (dispatch tok call oracle).fst.map Request.headers =
      [[("Authorization", "Bearer " ++ pyStr tok), ("accept", "application/json")]] ∧
    (dispatch tok call oracle).fst.map Request.timeout = [30] := by
  cases call <;> exact ⟨rfl, rfl⟩

/-- C7: the tool result is a function of the received upstream response
alone — two runs with different configured tokens that receive the same
response produce identical results, so the credential cannot leak into
the result. -/
theorem c7_token_noninterference (tok₁ tok₂ : Option String) (call : ToolCall) (o₁ o₂ : Oracle)
    (h : ∀ r₁ r₂, r₁ ∈ (dispatch tok₁ call o₁).fst → r₂ ∈ (dispatch tok₂ call o₂).fst →
      o₁ r₁ = o₂ r₂) :
    (dispatch tok₁ call o₁).snd = (dispatch tok₂ call o₂).snd := by
  cases call <;>
    exact congrArg finishResponse
      (h _ _ (List.mem_singleton.mpr rfl) (List.mem_singleton.mpr rfl))

/-- C7 witness: absent token versus a configured secret, same response,
same result. -/
theorem c7_witness :
    (dispatch none (ToolCall.search "q" none) (fun _ => ⟨200, Json.str "d"⟩)).snd =
      (dispatch (some "secret-token") (ToolCall.search "q" none) (fun _ => ⟨200, Json.str "d"⟩)).snd :=
  c7_token_noninterference none (some "secret-token") (ToolCall.search "q" none)
    (fun _ => ⟨200, Json.str "d"⟩) (fun _ => ⟨200, Json.str "d"⟩)
    (fun _ _ _ _ => rfl)

/-- C8: the client parses a positional tool name, a url flag defaulting
to localhost:8080 and an args flag defaulting to the empty JSON object;
each run opens exactly one session and issues at most one tool call; on
success it issues exactly one call, prints the result and exits 0; an
error from the handshake or the call exits non-zero with the message on
standard error. -/
theorem c8_client (tool : String) (urlOpt : Option String) (argsOpt : Option Json)
    (initResult : Except PyError Unit) (callResult : Except PyError Json) :
    parseArgs tool none none = ⟨tool, "http://localhost:8080", Json.obj []⟩ ∧
    (let opts := parseArgs tool urlOpt argsOpt
     let out := clientRun opts initResult callResult
     out.events.countP isOpen = 1 ∧
     out.events.countP isCall ≤ 1 ∧
     (∀ r, initResult = Except.ok () → callResult = Except.ok r →
       out.exitCode = 0 ∧
       out.events = [ClientEvent.openSession opts.url, ClientEvent.handshake,
         ClientEvent.callTool opts.tool opts.args, ClientEvent.printed r]) ∧
     (∀ e, initResult = Except.error e → out.exitCode ≠ 0 ∧ out.stderr = some e.msg) ∧
     (∀ e, initResult = Except.ok () → callResult = Except.error e →
       out.exitCode ≠ 0 ∧ out.stderr = some e.msg)) := by
  refine ⟨rfl, ?_, ?_, ?_, ?_, ?_⟩
  · cases initResult with
    | error e => rfl
    | ok u => cases callResult <;> rfl
  · cases initResult with
    | error e => exact Nat.zero_le 1
    | ok u => cases callResult <;> exact Nat.le_refl 1
  · intro r hi hc
    subst hi; subst hc
    exact ⟨rfl, rfl⟩
  · intro e hi
    subst hi
    exact ⟨Nat.one_ne_zero, rfl⟩
  · intro e hi hc
    subst hi; subst hc
    exact ⟨Nat.one_ne_zero, rfl⟩

/-- C8 witness: a successful concrete run prints the result and exits 0. -/
theorem c8_witness :
    (clientRun (parseArgs "feedly.search" none none) (Except.ok ())
        (Except.ok (Json.str "ok"))).exitCode = 0 ∧
    (clientRun (parseArgs "feedly.search" none none) (Except.ok ())
        (Except.ok (Json.str "ok"))).events =
      [ClientEvent.openSession "http://localhost:8080", ClientEvent.handshake,
       ClientEvent.callTool "feedly.search" (Json.obj []), ClientEvent.printed (Json.str "ok")] :=
  (c8_client "feedly.search" none none (Except.ok ()) (Except.ok (Json.str "ok"))).2.2.2.1
    (Json.str "ok") rfl rfl

/-- C9: with the token environment variable unset, the headers are still
built (startup does not abort) and every dispatched call issues its one
request carrying the literal header value "Bearer None". -/
theorem c9_missing_token (call : ToolCall) (oracle : Oracle) :
    HEADERS none = [("Authorization", "Bearer None"), ("accept", "application/json")] ∧
    (dispatch none call oracle).fst.map Request.headers =
      [[("Authorization", "Bearer None"), ("accept", "application/json")]] ∧
    (dispatch none call oracle).fst.length = 1 := by
  cases call <;> exact ⟨rfl, rfl, rfl⟩

/-- C10: a collect call whose continuation argument is the empty string
issues a GET with no continuation parameter; more generally the
continuation key is present exactly when the supplied string is
non-empty (Python truthiness), not merely present. -/
theorem c10_empty_continuation (tok : Option String) (S : String) (count : Int)
    (oracle : Oracle) (c : String) :
    (dispatch tok (ToolCall.collect S (some count) (some "")) oracle).fst.map Request.params =
      [[("streamId", S), ("count", toString count)]] ∧
    (dispatch tok (ToolCall.collect S (some count) (some c)) oracle).fst.map
        (fun r => r.params.map Prod.fst) =
      [["streamId", "count"] ++ if c = "" then [] else ["continuation"]] := by
  constructor
  · rfl
  · by_cases hc : c = "" <;> simp [dispatch, collect, hc]

end Feedly
